import Mathlib

/-
Verification of the databiz data pipeline (processing.py, api_client.py and
the data-handling part of viz.py) against its specification.

Modelling conventions:
* a pandas cell is a string, a number, or missing (NaN/None);
* a pandas Series/column carries a dtype: object (text) or numeric;
* a DataFrame stores its row count (the index length) and its columns;
* numeric coercion is modelled for integer literals (the domain of the
  "Codigo" identifier columns);
* Python floats are idealised as exact rationals, Python round as
  round-half-to-even on rationals.
-/

namespace Databiz

/-- A pandas cell: a string value, a numeric value, or missing (NaN/None). -/
inductive Cell where
  | str (s : String)
  | num (n : Int)
  | na
  deriving DecidableEq, Repr

/-- A pandas column dtype: object (text) or numeric. -/
inductive Dtype where
  | object
  | numeric
  deriving DecidableEq, Repr

/-- One column of a DataFrame: its label, dtype and cells. -/
structure Col where
  name : String
  dtype : Dtype
  cells : List Cell
  deriving DecidableEq, Repr

/-- A DataFrame: the index length (pandas len(df)) plus the columns. -/
structure DataFrame where
  nRows : Nat
  cols : List Col
  deriving DecidableEq, Repr

/-- Rectangularity: every column has exactly nRows cells.  Every DataFrame
built by pandas satisfies this. -/
def DataFrame.WF (df : DataFrame) : Prop :=
  ∀ c ∈ df.cols, c.cells.length = df.nRows

instance (df : DataFrame) : Decidable df.WF := by
  unfold DataFrame.WF; infer_instance

/-- Embeds Python str.strip / pandas .str.strip(): drop whitespace from both
ends of a string. -/
def pyStrip (s : String) : String :=
  String.mk (((s.data.dropWhile Char.isWhitespace).reverse.dropWhile
      Char.isWhitespace).reverse)

/-- Embeds the Python substring test (pat in s), case-sensitive. -/
def hasSubstr (s pat : String) : Bool :=
  s.data.tails.any (fun t => pat.data.isPrefixOf t)

/-- Embeds fillna("No informado") on one cell of an object-dtype column. -/
def fillnaCell (c : Cell) : Cell :=
  match c with
  | .na => .str "No informado"
  | c => c

/-- Value of a digit string read left to right. -/
def digitsToInt (ds : List Char) : Int :=
  ds.foldl (fun n c => n * 10 + ((c.toNat : Int) - 48)) 0

/-- Embeds the numeric parsing done by pd.to_numeric on one string, restricted
to integer literals (optional sign, optional surrounding whitespace):
unparseable strings give none. -/
def parseNumStr (s : String) : Option Int :=
  match (pyStrip s).data with
  | [] => none
  | '-' :: ds =>
      if !ds.isEmpty && ds.all Char.isDigit then some (-(digitsToInt ds)) else none
  | '+' :: ds =>
      if !ds.isEmpty && ds.all Char.isDigit then some (digitsToInt ds) else none
  | ds =>
      if !ds.isEmpty && ds.all Char.isDigit then some (digitsToInt ds) else none

/-- Embeds pd.to_numeric(x, errors="coerce") on one cell: unparseable text
becomes missing instead of raising. -/
def toNumericCell (c : Cell) : Cell :=
  match c with
  | .str s => match parseNumStr s with
    | some n => .num n
    | none => .na
  | .num n => .num n
  | .na => .na

/-- Per-column body of clean_dataframe: strip the column name; on object-dtype
columns fill missing cells with "No informado"; then, when the (stripped) name
contains "Codigo" and the column is object-dtype, coerce it to numeric. -/
def cleanCol (c : Col) : Col :=
  let nm := pyStrip c.name
  let cells1 := if c.dtype = .object then c.cells.map fillnaCell else c.cells
  if hasSubstr nm "Codigo" ∧ c.dtype = .object then
    { name := nm, dtype := .numeric, cells := cells1.map toNumericCell }
  else
    { name := nm, dtype := c.dtype, cells := cells1 }

/-- Embeds clean_dataframe (processing.py): the transform acts on each column
independently; the row count is unchanged. -/
def clean_dataframe (df : DataFrame) : DataFrame :=
  { nRows := df.nRows, cols := df.cols.map cleanCol }

/-- Embeds df[name] column lookup (first column with the given label). -/
def getCol (df : DataFrame) (name : String) : Option Col :=
  df.cols.find? (fun c => c.name == name)

/-- Embeds the Python test (name in df.columns). -/
def hasCol (df : DataFrame) (name : String) : Bool :=
  df.cols.any (fun c => c.name == name)

/-- Cells of a named column, or [] when the column is absent. -/
def colCells (df : DataFrame) (name : String) : List Cell :=
  match getCol df name with
  | some c => c.cells
  | none => []

/-- Record one more occurrence of key k in an association list of counts. -/
def bump (k : Cell) : List (Cell × Nat) → List (Cell × Nat)
  | [] => [(k, 1)]
  | (k', n) :: t => if k = k' then (k', n + 1) :: t else (k', n) :: bump k t

/-- Embeds df.groupby(col).size(): occurrence counts per distinct non-missing
value (pandas drops missing group keys).  Keys are listed in first-encounter
order; pandas sorts keys, but the aggregations below immediately re-sort by
count, so the key order never reaches a caller. -/
def groupCounts (cells : List Cell) : List (Cell × Nat) :=
  cells.foldl (fun acc c => match c with | .na => acc | c => bump c acc) []

/-- Comparator for sort_values("cantidad", ascending=False). -/
def countDescLe (a b : Cell × Nat) : Bool := b.2 ≤ a.2

/-- Comparator for sort_values("cantidad", ascending=True). -/
def countAscLe (a b : Cell × Nat) : Bool := a.2 ≤ b.2

/-- Common body of agg_by_region / agg_by_tipo_establecimiento /
agg_by_dependencia: empty result when the column is absent, else group, count
and sort by count descending.  The pandas relabelling of the two result
columns (e.g. to ["region", "cantidad"]) is presentational and not modelled:
an aggregate row is a (group value, count) pair. -/
def aggCounts (df : DataFrame) (col : String) : List (Cell × Nat) :=
  if hasCol df col then (groupCounts (colCells df col)).mergeSort countDescLe
  else []

/-- Embeds agg_by_region (processing.py). -/
def agg_by_region (df : DataFrame) (region_col : String) : List (Cell × Nat) :=
  aggCounts df region_col

/-- Embeds agg_by_tipo_establecimiento (processing.py). -/
def agg_by_tipo_establecimiento (df : DataFrame) (tipo_col : String) :
    List (Cell × Nat) :=
  aggCounts df tipo_col

/-- Embeds agg_by_dependencia (processing.py). -/
def agg_by_dependencia (df : DataFrame) (dep_col : String) : List (Cell × Nat) :=
  aggCounts df dep_col

/-- Embeds the data part of viz.plot_top_comunas: placeholder (empty data) when
ComunaGlosa is absent or the DataFrame is empty; otherwise group by commune,
sort ascending by count and keep the last top_n rows (pandas .tail). -/
def top_comunas (df : DataFrame) (top_n : Nat) : List (Cell × Nat) :=
  if hasCol df "ComunaGlosa" = false ∨ df.nRows = 0 then []
  else
    let sorted := (groupCounts (colCells df "ComunaGlosa")).mergeSort countAscLe
    sorted.drop (sorted.length - top_n)

/-- Embeds the elementwise comparison (df[col] == value) for a string value:
missing and numeric cells compare unequal to a string. -/
def cellEqStr (v : String) (c : Cell) : Bool :=
  match c with
  | .str s => s == v
  | _ => false

/-- Boolean mask of a column against a string value. -/
def maskOf (cells : List Cell) (v : String) : List Bool :=
  cells.map (cellEqStr v)

/-- Embeds boolean-mask row selection df[mask]: keep the entries at the mask's
true positions. -/
def applyMask : List Bool → List α → List α
  | b :: bs, x :: xs => if b then x :: applyMask bs xs else applyMask bs xs
  | _, _ => []

/-- Embeds df[df[col] == value].copy(): select the rows at the true positions
of the comparison mask in every column; the new index length is the number of
mask hits. -/
def filterExact (df : DataFrame) (col : String) (v : String) : DataFrame :=
  { nRows := (maskOf (colCells df col) v).countP id,
    cols := df.cols.map (fun c =>
      { name := c.name, dtype := c.dtype,
        cells := applyMask (maskOf (colCells df col) v) c.cells }) }

/-- Embeds filter_by_region (processing.py): the sentinel "Todas" or an absent
column returns the input itself. -/
def filter_by_region (df : DataFrame) (region : String) (region_col : String) :
    DataFrame :=
  if region == "Todas" ∨ hasCol df region_col = false then df
  else filterExact df region_col region

/-- Embeds filter_by_tipo (processing.py): the sentinel "Todos" or an absent
column returns the input itself. -/
def filter_by_tipo (df : DataFrame) (tipo : String) (tipo_col : String) :
    DataFrame :=
  if tipo == "Todos" ∨ hasCol df tipo_col = false then df
  else filterExact df tipo_col tipo

/-- Case folding as performed by the IGNORECASE regex match in calculate_kpis:
ASCII letters plus the accented vowels that occur in the matched patterns and
in the Spanish-language data. -/
def lowerChar (c : Char) : Char :=
  if c = 'Á' then 'á'
  else if c = 'É' then 'é'
  else if c = 'Í' then 'í'
  else if c = 'Ó' then 'ó'
  else if c = 'Ú' then 'ú'
  else if c = 'Ñ' then 'ñ'
  else c.toLower

/-- Lower-case a whole string (see lowerChar). -/
def lowerStr (s : String) : String :=
  String.mk (s.data.map lowerChar)

/-- Case-insensitive substring test. -/
def hasSubstrCI (s pat : String) : Bool :=
  hasSubstr (lowerStr s) (lowerStr pat)

/-- Embeds Series.str.contains("Público|Servicio de Salud|Municipal",
case=False, na=False) on one cell: the regex is an alternation of three
literals; a missing cell and a non-string cell both give a non-match
(na=False maps their NaN result to False). -/
def isPublicCell (c : Cell) : Bool :=
  match c with
  | .str s =>
      hasSubstrCI s "Público" || hasSubstrCI s "Servicio de Salud" ||
        hasSubstrCI s "Municipal"
  | _ => false

/-- Numerator of pct_publico: matching rows of the dependency column. -/
def pubCount (cells : List Cell) : Nat :=
  cells.countP isPublicCell

/-- Embeds Series.nunique(): distinct non-missing values. -/
def nuniqueCells (cells : List Cell) : Nat :=
  ((cells.filter (fun c => c != .na)).dedup).length

/-- Distinct count of a named column, 0 when absent (the code guards with a
column-membership test). -/
def nuniqueCol (df : DataFrame) (name : String) : Nat :=
  match getCol df name with
  | some c => nuniqueCells c.cells
  | none => 0

/-- Python round on an exact rational: nearest integer, ties to even. -/
def roundHalfEven (q : ℚ) : ℤ :=
  let f := ⌊q⌋
  let r := q - (f : ℚ)
  if r < 1 / 2 then f
  else if 1 / 2 < r then f + 1
  else if Even f then f else f + 1

/-- Python round(x, 1): one decimal place. -/
def round1 (q : ℚ) : ℚ :=
  ((roundHalfEven (q * 10) : ℤ) : ℚ) / 10

/-- The KPI record returned by calculate_kpis. -/
structure Kpis where
  total_establecimientos : Nat
  regiones : Nat
  comunas : Nat
  pct_publico : ℚ
  con_urgencia : Nat
  deriving DecidableEq, Repr

/-- Python exceptions that the modelled fragment can raise. -/
inductive PyError where
  | attributeError
  deriving DecidableEq, Repr

/-- Count of rows whose emergency-service column equals "Sí", 0 when the
column is absent. -/
def countUrgencia (df : DataFrame) : Nat :=
  match getCol df "TieneServicioUrgencia" with
  | some c => c.cells.countP (cellEqStr "Sí")
  | none => 0

/-- Embeds calculate_kpis (processing.py).  The .str accessor requires an
object-dtype Series: when DependenciaAdministrativa is present with a
non-object dtype the Python code raises AttributeError, modelled as an error
result.  Otherwise pct_publico is the matching share of the row count (0.0
when the row count is 0 or the column is absent), rounded to one decimal. -/
def calculate_kpis (df : DataFrame) : Except PyError Kpis :=
  let total := df.nRows
  let regiones := nuniqueCol df "RegionGlosa"
  let comunas := nuniqueCol df "ComunaGlosa"
  match getCol df "DependenciaAdministrativa" with
  | some c =>
      if c.dtype = .object then
        let publicos := pubCount c.cells
        let pct : ℚ := if 0 < total then (publicos : ℚ) / (total : ℚ) * 100 else 0
        .ok { total_establecimientos := total, regiones := regiones,
              comunas := comunas, pct_publico := round1 pct,
              con_urgencia := countUrgencia df }
      else .error .attributeError
  | none =>
      .ok { total_establecimientos := total, regiones := regiones,
            comunas := comunas, pct_publico := round1 0,
            con_urgencia := countUrgencia df }

/-- A decoded portal JSON body: the success flag and the result list (the
payload under result.results, kept opaque). -/
structure PortalResponse where
  success : Bool
  results : List String
  deriving DecidableEq, Repr

/-- Failure modes of the retry loop in _make_request: the last
requests.RequestException (carried as an opaque code), or the degenerate
retries = 0 path where the loop body never runs and raise last_exception
re-raises None. -/
inductive ReqError where
  | requestExc (e : Nat)
  | raisedNone
  deriving DecidableEq, Repr

/-- One HTTP attempt as seen by the retry loop: either a 2xx response, or a
raised RequestException (network failure, timeout, or non-2xx status via
raise_for_status), carried as an opaque code. -/
inductive Attempt where
  | ok (r : PortalResponse)
  | exc (e : Nat)
  deriving DecidableEq, Repr

/-- Retry loop body of _make_request: try attempts i, i+1, ... while fuel
lasts, remembering the last exception; return the first success, else raise
the last exception. -/
def tryAttempts (net : Nat → Attempt) (i : Nat) (last : ReqError) :
    Nat → Except ReqError PortalResponse
  | 0 => .error last
  | n + 1 =>
      match net i with
      | .ok r => .ok r
      | .exc e => tryAttempts net (i + 1) (.requestExc e) n

/-- Embeds _make_request (api_client.py): up to retries attempts against the
network environment net; the first success wins, otherwise the last
exception propagates. -/
def make_request (net : Nat → Attempt) (retries : Nat) :
    Except ReqError PortalResponse :=
  tryAttempts net 0 .raisedNone retries

/-- Fixed retry bound of the client. -/
def MAX_RETRIES : Nat := 3

/-- Embeds search_packages (api_client.py): perform the request (an exception
from _make_request propagates — there is no try/except around it), then
return [] when the portal reports success = false, else the result list. -/
def search_packages (net : Nat → Attempt) : Except ReqError (List String) :=
  match make_request net MAX_RETRIES with
  | .error e => .error e
  | .ok data => if data.success then .ok data.results else .ok []

/-- A heap of DataFrame objects, for stating object-identity properties:
a reference is an index into the store. -/
structure Store where
  objs : List DataFrame
  deriving DecidableEq, Repr

/-- Allocate a fresh object, returning the extended store and the new
reference. -/
def Store.alloc (s : Store) (d : DataFrame) : Store × Nat :=
  ({ objs := s.objs ++ [d] }, s.objs.length)

/-- Read the object behind a reference. -/
def Store.deref (s : Store) (r : Nat) : Option DataFrame :=
  s.objs[r]?

/-- Reference-level embedding of filter_by_region: the no-filter path returns
the input object itself (Python return df); the filtering path builds a fresh
object (df[mask].copy()) and writes no existing object. -/
def filter_by_region_ref (s : Store) (r : Nat) (region : String)
    (region_col : String) : Store × Nat :=
  match s.deref r with
  | none => (s, r)
  | some df =>
      if region == "Todas" ∨ hasCol df region_col = false then (s, r)
      else s.alloc (filterExact df region_col region)

/-- Reference-level embedding of filter_by_tipo (see filter_by_region_ref). -/
def filter_by_tipo_ref (s : Store) (r : Nat) (tipo : String)
    (tipo_col : String) : Store × Nat :=
  match s.deref r with
  | none => (s, r)
  | some df =>
      if tipo == "Todos" ∨ hasCol df tipo_col = false then (s, r)
      else s.alloc (filterExact df tipo_col tipo)

/-- Total count over an aggregate table: the sum of the per-group counts. -/
def sumCounts (l : List (Cell × Nat)) : Nat :=
  (l.map Prod.snd).sum

/- ------------------------------------------------------------------ -/
/- Helper lemmas. -/
/- ------------------------------------------------------------------ -/

theorem dropWhile_dropWhile (p : α → Bool) (l : List α) :
    (l.dropWhile p).dropWhile p = l.dropWhile p := by
  induction l with
  | nil => rfl
  | cons a t ih =>
      by_cases h : p a = true
      · simp [List.dropWhile_cons, h, ih]
      · simp [List.dropWhile_cons, h]

theorem dropWhile_eq_self_of_prefix (p : α → Bool) {l m : List α}
    (hp : m <+: l) (hl : l.dropWhile p = l) : m.dropWhile p = m := by
  cases m with
  | nil => rfl
  | cons a t =>
      obtain ⟨k, hk⟩ := hp
      cases l with
      | nil => simp at hk
      | cons b u =>
          have hab : a = b := by
            have := congrArg (·.head?) hk
            simpa using this
          subst hab
          have hpa : p a = false := by
            by_contra hcon
            have hpa : p a = true := by
              cases hx : p a with
              | false => exact absurd hx hcon
              | true => rfl
            rw [List.dropWhile_cons, if_pos hpa] at hl
            have hlen := congrArg List.length hl
            have hle : (u.dropWhile p).length ≤ u.length :=
              List.Sublist.length_le (List.dropWhile_sublist p)
            simp at hlen
            omega
          simp [List.dropWhile_cons, hpa]

theorem pyStrip_pyStrip (s : String) : pyStrip (pyStrip s) = pyStrip s := by
  unfold pyStrip
  have hmk : ∀ l : List Char, (String.mk l).data = l := fun _ => rfl
  rw [hmk]
  set ws := Char.isWhitespace
  set L := s.data.dropWhile ws with hL
  set R := ((L.reverse.dropWhile ws).reverse : List Char) with hR
  have hLfix : L.dropWhile ws = L := dropWhile_dropWhile ws s.data
  have hRrev : R.reverse = L.reverse.dropWhile ws := by
    rw [hR, List.reverse_reverse]
  have hRpre : R <+: L := by
    rw [← List.reverse_suffix, hRrev]
    exact List.dropWhile_suffix ws
  have hRfix : R.dropWhile ws = R := dropWhile_eq_self_of_prefix ws hRpre hLfix
  rw [hRfix, hRrev, dropWhile_dropWhile]

theorem fillnaCell_fillnaCell (c : Cell) :
    fillnaCell (fillnaCell c) = fillnaCell c := by
  cases c <;> rfl

theorem applyMask_nil (m : List Bool) : applyMask m ([] : List α) = [] := by
  cases m <;> rfl

theorem map_applyMask (f : α → β) (m : List Bool) (l : List α) :
    (applyMask m l).map f = applyMask m (l.map f) := by
  induction m generalizing l with
  | nil => simp [applyMask]
  | cons b bs ih =>
      cases l with
      | nil => simp [applyMask]
      | cons x xs =>
          cases b <;> simp [applyMask, ih]

theorem applyMask_applyMask (m₁ m₂ : List Bool) (l : List α) :
    applyMask (applyMask m₁ m₂) (applyMask m₁ l) =
      applyMask (List.zipWith and m₁ m₂) l := by
  induction m₁ generalizing m₂ l with
  | nil => simp [applyMask]
  | cons b bs ih =>
      cases m₂ with
      | nil => simp [applyMask, applyMask_nil]
      | cons c cs =>
          cases l with
          | nil => simp [applyMask_nil]
          | cons x xs =>
              cases b <;> cases c <;> simp [applyMask, ih]

theorem countP_applyMask (m₁ m₂ : List Bool) :
    (applyMask m₁ m₂).countP id = (List.zipWith and m₁ m₂).countP id := by
  induction m₁ generalizing m₂ with
  | nil => simp [applyMask]
  | cons b bs ih =>
      cases m₂ with
      | nil => simp [applyMask]
      | cons c cs =>
          cases b <;> cases c <;> simp [applyMask, List.countP_cons, ih]

theorem sumCounts_bump (k : Cell) (acc : List (Cell × Nat)) :
    sumCounts (bump k acc) = sumCounts acc + 1 := by
  induction acc with
  | nil => simp [bump, sumCounts]
  | cons hd t ih =>
      obtain ⟨k', n⟩ := hd
      by_cases h : k = k' <;> simp [bump, h, sumCounts] at * <;> omega

theorem sumCounts_groupCounts (cells : List Cell) :
    sumCounts (groupCounts cells) = cells.countP (fun c => c != Cell.na) := by
  suffices H : ∀ acc, sumCounts (cells.foldl
      (fun acc c => match c with | .na => acc | c => bump c acc) acc) =
      sumCounts acc + cells.countP (fun c => c != Cell.na) by
    simpa [groupCounts, sumCounts] using H []
  induction cells with
  | nil => intro acc; simp [sumCounts]
  | cons c t ih =>
      intro acc
      cases c with
      | na => simp [List.countP_cons, ih]
      | str s => simp [List.countP_cons, ih, sumCounts_bump]; omega
      | num n => simp [List.countP_cons, ih, sumCounts_bump]; omega

theorem sumCounts_of_perm {l₁ l₂ : List (Cell × Nat)} (h : l₁.Perm l₂) :
    sumCounts l₁ = sumCounts l₂ :=
  (h.map Prod.snd).sum_eq

theorem getCol_of_hasCol {df : DataFrame} {n : String}
    (h : hasCol df n = true) :
    ∃ c, getCol df n = some c ∧ c ∈ df.cols ∧ c.name = n := by
  have hsome : (df.cols.find? (fun c => c.name == n)).isSome := by
    rw [List.find?_isSome]
    simpa [hasCol, List.any_eq_true] using h
  obtain ⟨c, hc⟩ := Option.isSome_iff_exists.mp hsome
  refine ⟨c, hc, List.mem_of_find?_eq_some hc, ?_⟩
  have := List.find?_some hc
  simpa using this

theorem getCol_eq_none_of_hasCol {df : DataFrame} {n : String}
    (h : hasCol df n = false) : getCol df n = none := by
  rw [getCol, List.find?_eq_none]
  intro x hx
  simp only [hasCol] at h
  rw [List.any_eq_false] at h
  exact fun hc => (h x hx) hc

theorem cleanCol_cleanCol (c : Col) : cleanCol (cleanCol c) = cleanCol c := by
  by_cases hd : c.dtype = Dtype.object
  · by_cases hs : hasSubstr (pyStrip c.name) "Codigo" = true
    · simp [cleanCol, hd, hs, pyStrip_pyStrip]
    · have hmap : ∀ l : List Cell, (l.map fillnaCell).map fillnaCell =
          l.map fillnaCell := by
        intro l
        rw [List.map_map]
        exact List.map_congr_left (fun a _ => fillnaCell_fillnaCell a)
      simp [cleanCol, hd, hs, pyStrip_pyStrip, hmap]
  · simp [cleanCol, hd, pyStrip_pyStrip]

theorem floor_le_roundHalfEven (q : ℚ) :
    ⌊q⌋ ≤ roundHalfEven q ∧ roundHalfEven q ≤ ⌈q⌉ := by
  simp only [roundHalfEven]
  have hfc : ⌊q⌋ ≤ ⌈q⌉ := Int.floor_le_ceil q
  have hceil : ¬(q - (⌊q⌋ : ℚ) < 1 / 2) → ⌊q⌋ + 1 ≤ ⌈q⌉ := by
    intro h
    push_neg at h
    have hlt : ((⌊q⌋ : ℤ) : ℚ) < q := by
      have : (0 : ℚ) < 1 / 2 := by norm_num
      linarith
    have := Int.lt_ceil.mpr hlt
    omega
  split_ifs with h1 h2 h3
  · exact ⟨le_refl _, hfc⟩
  · exact ⟨by omega, hceil h1⟩
  · exact ⟨le_refl _, hfc⟩
  · exact ⟨by omega, hceil h1⟩

theorem round1_bounds {q : ℚ} (h0 : 0 ≤ q) (h1 : q ≤ 100) :
    0 ≤ round1 q ∧ round1 q ≤ 100 := by
  obtain ⟨hlo, hhi⟩ := floor_le_roundHalfEven (q * 10)
  have hf0 : (0 : ℤ) ≤ ⌊q * 10⌋ := by
    rw [Int.floor_nonneg]
    positivity
  have hc1000 : ⌈q * 10⌉ ≤ 1000 := by
    have hq10 : q * 10 ≤ 1000 := by linarith
    calc ⌈q * 10⌉ ≤ ⌈(1000 : ℚ)⌉ := Int.ceil_mono hq10
      _ = 1000 := by norm_num
  have hr0 : (0 : ℤ) ≤ roundHalfEven (q * 10) := le_trans hf0 hlo
  have hr1000 : roundHalfEven (q * 10) ≤ 1000 := le_trans hhi hc1000
  constructor
  · unfold round1
    positivity
  · unfold round1
    rw [div_le_iff₀ (by norm_num : (0:ℚ) < 10)]
    calc ((roundHalfEven (q * 10) : ℤ) : ℚ) ≤ ((1000 : ℤ) : ℚ) := by
          exact_mod_cast hr1000
      _ = 100 * 10 := by norm_num

theorem round1_zero : round1 0 = 0 := by
  have h : roundHalfEven 0 = 0 := by
    unfold roundHalfEven
    norm_num
  simp [round1, h]

theorem hasCol_filterExact (df : DataFrame) (c v x : String) :
    hasCol (filterExact df c v) x = hasCol df x := by
  simp only [hasCol, filterExact, List.any_map]
  rfl

theorem getCol_filterExact (df : DataFrame) (c v x : String) :
    getCol (filterExact df c v) x = (getCol df x).map (fun col =>
      { name := col.name, dtype := col.dtype,
        cells := applyMask (maskOf (colCells df c) v) col.cells }) := by
  simp only [getCol, filterExact, List.find?_map]
  rfl

theorem colCells_filterExact (df : DataFrame) (c v x : String) :
    colCells (filterExact df c v) x =
      applyMask (maskOf (colCells df c) v) (colCells df x) := by
  rw [colCells, getCol_filterExact]
  cases h : getCol df x with
  | none => simp [colCells, h, applyMask_nil]
  | some col => simp [colCells, h]

theorem hasCol_filter_by_region (df : DataFrame) (r rc x : String) :
    hasCol (filter_by_region df r rc) x = hasCol df x := by
  rw [filter_by_region]
  split
  · rfl
  · rw [hasCol_filterExact]

theorem hasCol_filter_by_tipo (df : DataFrame) (t tc x : String) :
    hasCol (filter_by_tipo df t tc) x = hasCol df x := by
  rw [filter_by_tipo]
  split
  · rfl
  · rw [hasCol_filterExact]

theorem maskOf_applyMask (m : List Bool) (cells : List Cell) (v : String) :
    maskOf (applyMask m cells) v = applyMask m (maskOf cells v) :=
  map_applyMask (cellEqStr v) m cells

theorem nRows_filterExact (df : DataFrame) (c v : String) :
    (filterExact df c v).nRows = (maskOf (colCells df c) v).countP id := rfl

theorem cols_filterExact (df : DataFrame) (c v : String) :
    (filterExact df c v).cols = df.cols.map (fun col =>
      { name := col.name, dtype := col.dtype,
        cells := applyMask (maskOf (colCells df c) v) col.cells }) := rfl

theorem dataFrame_eq_of (a b : DataFrame) (h1 : a.nRows = b.nRows)
    (h2 : a.cols = b.cols) : a = b := by
  cases a; cases b; simp_all

theorem filterExact_comm (df : DataFrame) (c₁ v₁ c₂ v₂ : String) :
    filterExact (filterExact df c₁ v₁) c₂ v₂ =
      filterExact (filterExact df c₂ v₂) c₁ v₁ := by
  have key : ∀ (a₁ b₁ a₂ b₂ : String),
      maskOf (colCells (filterExact df a₁ b₁) a₂) b₂ =
        applyMask (maskOf (colCells df a₁) b₁) (maskOf (colCells df a₂) b₂) := by
    intro a₁ b₁ a₂ b₂
    rw [colCells_filterExact, maskOf_applyMask]
  have hand : List.zipWith and (maskOf (colCells df c₁) v₁)
      (maskOf (colCells df c₂) v₂) =
      List.zipWith and (maskOf (colCells df c₂) v₂)
        (maskOf (colCells df c₁) v₁) :=
    List.zipWith_comm_of_comm and Bool.and_comm _ _
  apply dataFrame_eq_of
  · rw [nRows_filterExact, nRows_filterExact, key c₁ v₁ c₂ v₂,
      key c₂ v₂ c₁ v₁, countP_applyMask, countP_applyMask, hand]
  · rw [cols_filterExact (filterExact df c₁ v₁) c₂ v₂,
      cols_filterExact (filterExact df c₂ v₂) c₁ v₁,
      key c₁ v₁ c₂ v₂, key c₂ v₂ c₁ v₁,
      cols_filterExact df c₁ v₁, cols_filterExact df c₂ v₂,
      List.map_map, List.map_map]
    apply List.map_congr_left
    intro a _
    simp only [Function.comp]
    congr 1
    rw [applyMask_applyMask, applyMask_applyMask, hand]

theorem pairwise_aggCounts (df : DataFrame) (col : String) :
    List.Pairwise (fun a b : Cell × Nat => b.2 ≤ a.2) (aggCounts df col) := by
  unfold aggCounts
  split
  · have hs := @List.sorted_mergeSort (Cell × Nat) countDescLe
      (fun a b c hab hbc => by
        simp only [countDescLe, decide_eq_true_eq] at *; omega)
      (fun a b => by
        simp only [countDescLe, Bool.or_eq_true, decide_eq_true_eq]
        exact Nat.le_total b.2 a.2)
      (groupCounts (colCells df col))
    exact hs.imp (fun h => by simpa [countDescLe] using h)
  · exact List.Pairwise.nil

theorem pairwise_top_comunas (df : DataFrame) (n : Nat) :
    List.Pairwise (fun a b : Cell × Nat => a.2 ≤ b.2) (top_comunas df n) ∧
    (top_comunas df n).length ≤ n := by
  unfold top_comunas
  split
  · exact ⟨List.Pairwise.nil, Nat.zero_le n⟩
  · constructor
    · have hs := @List.sorted_mergeSort (Cell × Nat) countAscLe
        (fun a b c hab hbc => by
          simp only [countAscLe, decide_eq_true_eq] at *; omega)
        (fun a b => by
          simp only [countAscLe, Bool.or_eq_true, decide_eq_true_eq]
          exact Nat.le_total a.2 b.2)
        (groupCounts (colCells df "ComunaGlosa"))
      have hsub := List.drop_sublist
        (((groupCounts (colCells df "ComunaGlosa")).mergeSort countAscLe).length - n)
        ((groupCounts (colCells df "ComunaGlosa")).mergeSort countAscLe)
      exact (List.Pairwise.sublist hsub hs).imp
        (fun h => by simpa [countAscLe] using h)
    · rw [List.length_drop]
      omega

/- ------------------------------------------------------------------ -/
/- Claim theorems. -/
/- ------------------------------------------------------------------ -/

/-- C1 (amended): for every rectangular Dataset and grouping column present in
it whose cells have no missing values (as is the case for text columns after
cleaning), the sum of the counts in the aggregate tables produced by
agg_by_region, agg_by_tipo_establecimiento and agg_by_dependencia equals the
Dataset's row count.  (With missing values present, pandas groupby drops those
rows from every group, so the sum falls short — see the counterexample.) -/
theorem agg_counts_sum_eq_row_count (df : DataFrame) (col : String)
    (hwf : df.WF) (hc : hasCol df col = true)
    (hna : ∀ x ∈ colCells df col, x ≠ Cell.na) :
    sumCounts (agg_by_region df col) = df.nRows ∧
    sumCounts (agg_by_tipo_establecimiento df col) = df.nRows ∧
    sumCounts (agg_by_dependencia df col) = df.nRows := by
  have core : sumCounts (aggCounts df col) = df.nRows := by
    unfold aggCounts
    rw [if_pos hc]
    rw [sumCounts_of_perm (List.mergeSort_perm (groupCounts (colCells df col))
      countDescLe)]
    rw [sumCounts_groupCounts]
    have hlen : (colCells df col).countP (fun c => c != Cell.na) =
        (colCells df col).length := by
      rw [List.countP_eq_length]
      intro a ha
      simpa using hna a ha
    rw [hlen]
    obtain ⟨c, hgc, hmem, _⟩ := getCol_of_hasCol hc
    have hcl := hwf c hmem
    simp [colCells, hgc, hcl]
  exact ⟨core, core, core⟩

/-- C1 witness: applies the amended sum theorem to a concrete two-row
Dataset. -/
theorem agg_counts_sum_eq_row_count_witness :
    sumCounts (agg_by_region
      (DataFrame.mk 2 [Col.mk "RegionGlosa" Dtype.object
        [Cell.str "RM", Cell.str "V"]]) "RegionGlosa") = 2 :=
  (agg_counts_sum_eq_row_count
    (DataFrame.mk 2 [Col.mk "RegionGlosa" Dtype.object
      [Cell.str "RM", Cell.str "V"]]) "RegionGlosa"
    (by decide) (by decide) (by decide)).1

/-- C1 counterexample: a rectangular one-row Dataset whose region value is
missing; the aggregate table is empty, so the counts sum to 0 while the row
count is 1.  This refutes the unconditional claim. -/
theorem agg_counts_sum_counterexample :
    DataFrame.WF (DataFrame.mk 1 [Col.mk "RegionGlosa" Dtype.object
      [Cell.na]]) ∧
    sumCounts (agg_by_region (DataFrame.mk 1
      [Col.mk "RegionGlosa" Dtype.object [Cell.na]]) "RegionGlosa") = 0 ∧
    (DataFrame.mk 1 [Col.mk "RegionGlosa" Dtype.object [Cell.na]]).nRows = 1 := by
  refine ⟨by decide, ?_, rfl⟩
  have h1 : colCells (DataFrame.mk 1
      [Col.mk "RegionGlosa" Dtype.object [Cell.na]]) "RegionGlosa" =
      [Cell.na] := rfl
  have h2 : groupCounts [Cell.na] = [] := rfl
  simp [agg_by_region, aggCounts, h1, h2, List.mergeSort_nil, sumCounts]

/-- C2: for every Dataset, the region / facility-type / dependency aggregate
tables are sorted non-increasing by count, while the top-communes data is
sorted non-decreasing by count and has at most top_n rows. -/
theorem agg_sorted_desc_top_comunas_asc (df : DataFrame) (col : String)
    (n : Nat) :
    List.Pairwise (fun a b : Cell × Nat => b.2 ≤ a.2) (agg_by_region df col) ∧
    List.Pairwise (fun a b : Cell × Nat => b.2 ≤ a.2)
      (agg_by_tipo_establecimiento df col) ∧
    List.Pairwise (fun a b : Cell × Nat => b.2 ≤ a.2)
      (agg_by_dependencia df col) ∧
    List.Pairwise (fun a b : Cell × Nat => a.2 ≤ b.2) (top_comunas df n) ∧
    (top_comunas df n).length ≤ n :=
  ⟨pairwise_aggCounts df col, pairwise_aggCounts df col,
    pairwise_aggCounts df col, (pairwise_top_comunas df n).1,
    (pairwise_top_comunas df n).2⟩

/-- C3: for every rectangular Dataset on which calculate_kpis succeeds, the
KPI pct_publico lies in [0, 100]; when the dependency column is present and
the row count is positive it equals the matching count (case-insensitive
substring match against the three public-sector patterns, per isPublicCell)
divided by the row count, times 100, rounded to one decimal; and it equals 0
when the Dataset has zero rows or the column is absent.  calculate_kpis
succeeds on every Dataset whose dependency column, if present, is
text-typed — as the spec's Dataset data model guarantees. -/
theorem kpis_pct_publico_bounds (df : DataFrame) (hwf : df.WF) :
    (∀ k, calculate_kpis df = Except.ok k →
      0 ≤ k.pct_publico ∧ k.pct_publico ≤ 100 ∧
      (df.nRows = 0 ∨ hasCol df "DependenciaAdministrativa" = false →
        k.pct_publico = 0) ∧
      (∀ c, getCol df "DependenciaAdministrativa" = some c → 0 < df.nRows →
        k.pct_publico =
          round1 ((pubCount c.cells : ℚ) / (df.nRows : ℚ) * 100))) ∧
    ((∀ c, getCol df "DependenciaAdministrativa" = some c →
        c.dtype = Dtype.object) →
      ∃ k, calculate_kpis df = Except.ok k) := by
  constructor
  · intro k hk
    cases hgc : getCol df "DependenciaAdministrativa" with
    | none =>
        simp only [calculate_kpis, hgc, Except.ok.injEq] at hk
        subst hk
        simp only [round1_zero]
        refine ⟨le_refl 0, by norm_num, fun _ => trivial, ?_⟩
        intro c hc
        simp at hc
    | some c =>
        simp only [calculate_kpis, hgc] at hk
        by_cases hd : c.dtype = Dtype.object
        · rw [if_pos hd] at hk
          simp only [Except.ok.injEq] at hk
          subst hk
          by_cases h0 : 0 < df.nRows
          · have hmem : c ∈ df.cols :=
              List.mem_of_find?_eq_some (by simpa [getCol] using hgc)
            have hlen : c.cells.length = df.nRows := hwf c hmem
            have hle : pubCount c.cells ≤ df.nRows := by
              rw [← hlen]
              exact List.countP_le_length isPublicCell
            have hq0 : (0:ℚ) ≤ (pubCount c.cells : ℚ) / (df.nRows : ℚ) * 100 := by
              positivity
            have hq1 : (pubCount c.cells : ℚ) / (df.nRows : ℚ) * 100 ≤ 100 := by
              have hpos : (0:ℚ) < (df.nRows : ℚ) := by exact_mod_cast h0
              have hdivle : (pubCount c.cells : ℚ) / (df.nRows : ℚ) ≤ 1 :=
                (div_le_one hpos).mpr (by exact_mod_cast hle)
              nlinarith
            obtain ⟨hb0, hb1⟩ := round1_bounds hq0 hq1
            simp only [if_pos h0]
            refine ⟨hb0, hb1, ?_, ?_⟩
            · rintro (h | h)
              · omega
              · rw [getCol_eq_none_of_hasCol h] at hgc
                exact absurd hgc (by simp)
            · intro c' hc' _
              simp only [Option.some.injEq] at hc'
              subst hc'
              rfl
          · simp only [if_neg h0, round1_zero]
            refine ⟨le_refl 0, by norm_num, fun _ => trivial, ?_⟩
            intro c' _ hpos
            exact absurd hpos h0
        · rw [if_neg hd] at hk
          exact absurd hk (by simp)
  · intro hdep
    cases hgc : getCol df "DependenciaAdministrativa" with
    | none =>
        exact ⟨Kpis.mk df.nRows (nuniqueCol df "RegionGlosa")
          (nuniqueCol df "ComunaGlosa") (round1 0) (countUrgencia df),
          by simp only [calculate_kpis, hgc]⟩
    | some c =>
        exact ⟨Kpis.mk df.nRows (nuniqueCol df "RegionGlosa")
          (nuniqueCol df "ComunaGlosa")
          (round1 (if 0 < df.nRows then
            (pubCount c.cells : ℚ) / (df.nRows : ℚ) * 100 else 0))
          (countUrgencia df),
          by simp only [calculate_kpis, hgc, if_pos (hdep c hgc)]⟩

/-- C3 witness: the bounds hold on a concrete two-row Dataset with one public
and one private facility. -/
theorem kpis_pct_publico_bounds_witness :
    0 ≤ (Kpis.mk 2 0 0
      (round1 (if 0 < (2:Nat) then
        ((pubCount [Cell.str "Municipal", Cell.str "Privado"] : ℚ) /
          ((2:Nat) : ℚ) * 100) else 0)) 0).pct_publico ∧
    (Kpis.mk 2 0 0
      (round1 (if 0 < (2:Nat) then
        ((pubCount [Cell.str "Municipal", Cell.str "Privado"] : ℚ) /
          ((2:Nat) : ℚ) * 100) else 0)) 0).pct_publico ≤ 100 := by
  have h := (kpis_pct_publico_bounds
    (DataFrame.mk 2 [Col.mk "DependenciaAdministrativa" Dtype.object
      [Cell.str "Municipal", Cell.str "Privado"]]) (by decide)).1
    (Kpis.mk 2 0 0
      (round1 (if 0 < (2:Nat) then
        ((pubCount [Cell.str "Municipal", Cell.str "Privado"] : ℚ) /
          ((2:Nat) : ℚ) * 100) else 0)) 0) rfl
  exact ⟨h.1, h.2.1⟩

/-- C10: in calculate_kpis a missing dependency value is counted as not
public: the matcher maps a missing cell to a non-match instead of raising, so
the pct_publico numerator counts exactly the rows with a present, matching
value, and prepending a missing cell leaves the numerator unchanged (while
calculate_kpis still succeeds on such data). -/
theorem kpis_missing_dependency_not_public (df : DataFrame) (c : Col)
    (h1 : getCol df "DependenciaAdministrativa" = some c)
    (h2 : c.dtype = Dtype.object) :
    (∃ k, calculate_kpis df = Except.ok k) ∧
    isPublicCell Cell.na = false ∧
    pubCount c.cells =
      (c.cells.filter (fun x => x != Cell.na && isPublicCell x)).length ∧
    pubCount (Cell.na :: c.cells) = pubCount c.cells := by
  refine ⟨⟨Kpis.mk df.nRows (nuniqueCol df "RegionGlosa")
    (nuniqueCol df "ComunaGlosa")
    (round1 (if 0 < df.nRows then
      (pubCount c.cells : ℚ) / (df.nRows : ℚ) * 100 else 0))
    (countUrgencia df),
    by simp only [calculate_kpis, h1, if_pos h2]⟩, rfl, ?_, ?_⟩
  · rw [pubCount, List.countP_eq_length_filter]
    apply congrArg List.length
    apply List.filter_congr
    intro x _
    cases x <;> rfl
  · rw [pubCount, pubCount, List.countP_cons_of_neg]
    simp [isPublicCell]

/-- C10 witness: applies the theorem to a concrete Dataset whose dependency
column holds one matching value and one missing value. -/
theorem kpis_missing_dependency_not_public_witness :
    isPublicCell Cell.na = false ∧
    pubCount (Cell.na :: [Cell.str "Municipal", Cell.na]) =
      pubCount [Cell.str "Municipal", Cell.na] :=
  ⟨(kpis_missing_dependency_not_public
      (DataFrame.mk 2 [Col.mk "DependenciaAdministrativa" Dtype.object
        [Cell.str "Municipal", Cell.na]])
      (Col.mk "DependenciaAdministrativa" Dtype.object
        [Cell.str "Municipal", Cell.na]) rfl rfl).2.1,
   (kpis_missing_dependency_not_public
      (DataFrame.mk 2 [Col.mk "DependenciaAdministrativa" Dtype.object
        [Cell.str "Municipal", Cell.na]])
      (Col.mk "DependenciaAdministrativa" Dtype.object
        [Cell.str "Municipal", Cell.na]) rfl rfl).2.2.2⟩

/-- C4 counterexample: the source's coercion convention is the substring
"Codigo", not "code".  The column named "Codigo" does not contain "code"
(case-sensitively), yet clean coerces it: its text cell becomes
absent-numeric and its dtype becomes numeric. -/
theorem clean_code_substring_counterexample :
    hasSubstr "Codigo" "code" = false ∧
    clean_dataframe (DataFrame.mk 1 [Col.mk "Codigo" Dtype.object
      [Cell.str "abc"]]) =
      DataFrame.mk 1 [Col.mk "Codigo" Dtype.numeric [Cell.na]] := by
  decide

/-- C4 (amended): clean coerces to numeric exactly those columns whose
(stripped) name contains the substring "Codigo" (case-sensitive) and whose
values are currently text-typed; each unparseable value becomes
absent-numeric rather than raising; every other column keeps its dtype and is
only subject to the missing-text fill. -/
theorem clean_coerces_exactly_codigo (df : DataFrame) (c : Col) (s : String) :
    (clean_dataframe df).cols = df.cols.map cleanCol ∧
    (hasSubstr (pyStrip c.name) "Codigo" = true → c.dtype = Dtype.object →
      (cleanCol c).dtype = Dtype.numeric ∧
      (cleanCol c).cells =
        c.cells.map (fun x => toNumericCell (fillnaCell x)) ∧
      (parseNumStr s = none → toNumericCell (Cell.str s) = Cell.na)) ∧
    ((hasSubstr (pyStrip c.name) "Codigo" = false ∨ c.dtype ≠ Dtype.object) →
      (cleanCol c).dtype = c.dtype ∧
      (cleanCol c).cells =
        (if c.dtype = Dtype.object then c.cells.map fillnaCell else c.cells)) := by
  refine ⟨rfl, ?_, ?_⟩
  · intro hs hd
    refine ⟨?_, ?_, ?_⟩
    · simp [cleanCol, hs, hd]
    · simp [cleanCol, hs, hd, List.map_map, Function.comp]
    · intro hp
      simp [toNumericCell, hp]
  · intro h
    have hcond : ¬(hasSubstr (pyStrip c.name) "Codigo" = true ∧
        c.dtype = Dtype.object) := by
      rcases h with h | h
      · intro ⟨h1, _⟩; rw [h] at h1; exact Bool.false_ne_true h1
      · intro ⟨_, h2⟩; exact h h2
    constructor
    · simp [cleanCol, hcond]
    · simp [cleanCol, hcond]

/-- C4 witness: applies the amended coercion theorem to a concrete text
column named "CodigoRegion" with an unparseable value. -/
theorem clean_coerces_exactly_codigo_witness :
    (cleanCol (Col.mk "CodigoRegion" Dtype.object [Cell.str "xy"])).dtype =
      Dtype.numeric ∧
    (cleanCol (Col.mk "CodigoRegion" Dtype.object [Cell.str "xy"])).cells =
      [Cell.str "xy"].map (fun x => toNumericCell (fillnaCell x)) ∧
    (parseNumStr "xy" = none → toNumericCell (Cell.str "xy") = Cell.na) :=
  (clean_coerces_exactly_codigo
    (DataFrame.mk 1 [Col.mk "CodigoRegion" Dtype.object [Cell.str "xy"]])
    (Col.mk "CodigoRegion" Dtype.object [Cell.str "xy"]) "xy").2.1
    (by decide) rfl

/-- C5 counterexample: when every attempt raises, search_packages propagates
the last network-layer failure instead of returning an empty list. -/
theorem search_packages_counterexample :
    search_packages (fun i => Attempt.exc i) =
      Except.error (ReqError.requestExc 2) := rfl

/-- C5 (amended): search_packages swallows only the portal-reported logical
failure (success flag false), returning an empty list then, and returns the
result list on success; but a network-layer failure surviving all
MAX_RETRIES attempts of _make_request propagates to the caller as the last
raised exception. -/
theorem search_packages_behavior (net : Nat → Attempt) (e : Nat → Nat)
    (r : PortalResponse) :
    (make_request net MAX_RETRIES = Except.ok r → r.success = false →
      search_packages net = Except.ok []) ∧
    (make_request net MAX_RETRIES = Except.ok r → r.success = true →
      search_packages net = Except.ok r.results) ∧
    ((∀ i, i < MAX_RETRIES → net i = Attempt.exc (e i)) →
      search_packages net = Except.error (ReqError.requestExc (e 2))) := by
  refine ⟨?_, ?_, ?_⟩
  · intro hmk hs
    simp [search_packages, hmk, hs]
  · intro hmk hs
    simp [search_packages, hmk, hs]
  · intro hfail
    have h0 := hfail 0 (by decide)
    have h1 := hfail 1 (by decide)
    have h2 := hfail 2 (by decide)
    simp [search_packages, make_request, MAX_RETRIES, tryAttempts, h0, h1, h2]

/-- C5 witness: applies the amended behaviour theorem to a concrete
environment in which every attempt raises. -/
theorem search_packages_behavior_witness :
    search_packages (fun i => Attempt.exc (5 + i)) =
      Except.error (ReqError.requestExc 7) :=
  (search_packages_behavior (fun i => Attempt.exc (5 + i)) (fun i => 5 + i)
    (PortalResponse.mk true [])).2.2 (fun _ _ => rfl)

/-- C6: filtering with the "all" sentinel value ("Todas" for the region
filter, "Todos" for the type filter) or on a column absent from the Dataset
returns the input Dataset itself — identical row count and content. -/
theorem filter_sentinel_is_identity (df : DataFrame) (r t rc tc : String) :
    filter_by_region df "Todas" rc = df ∧
    filter_by_tipo df "Todos" tc = df ∧
    (hasCol df rc = false → filter_by_region df r rc = df) ∧
    (hasCol df tc = false → filter_by_tipo df t tc = df) := by
  refine ⟨?_, ?_, ?_, ?_⟩
  · simp [filter_by_region]
  · simp [filter_by_tipo]
  · intro h; simp [filter_by_region, h]
  · intro h; simp [filter_by_tipo, h]

/-- C6 witness: applies the sentinel theorem to a concrete Dataset with a
filter column it does not have. -/
theorem filter_sentinel_is_identity_witness :
    filter_by_region (DataFrame.mk 1 [Col.mk "X" Dtype.object
      [Cell.str "v"]]) "RM" "RegionGlosa" =
      DataFrame.mk 1 [Col.mk "X" Dtype.object [Cell.str "v"]] :=
  (filter_sentinel_is_identity
    (DataFrame.mk 1 [Col.mk "X" Dtype.object [Cell.str "v"]])
    "RM" "T" "RegionGlosa" "TipoEstablecimientoGlosa").2.2.1 (by decide)

/-- C7: for every Dataset and any filter values and column names, filtering
by region then by type yields the same Dataset (hence the same row set) as
filtering by type then by region. -/
theorem filters_commute (df : DataFrame) (r t rc tc : String) :
    filter_by_tipo (filter_by_region df r rc) t tc =
      filter_by_region (filter_by_tipo df t tc) r rc := by
  by_cases hr : (r == "Todas") = true ∨ hasCol df rc = false
  · have e1 : filter_by_region df r rc = df := by
      rw [filter_by_region, if_pos hr]
    by_cases ht : (t == "Todos") = true ∨ hasCol df tc = false
    · have e2 : filter_by_tipo df t tc = df := by
        rw [filter_by_tipo, if_pos ht]
      rw [e1, e2, e1]
    · have hr' : (r == "Todas") = true ∨
          hasCol (filter_by_tipo df t tc) rc = false := by
        rcases hr with h | h
        · exact Or.inl h
        · exact Or.inr (by rw [hasCol_filter_by_tipo]; exact h)
      have e3 : filter_by_region (filter_by_tipo df t tc) r rc =
          filter_by_tipo df t tc := by
        rw [filter_by_region, if_pos hr']
      rw [e1, e3]
  · by_cases ht : (t == "Todos") = true ∨ hasCol df tc = false
    · have e2 : filter_by_tipo df t tc = df := by
        rw [filter_by_tipo, if_pos ht]
      have ht' : (t == "Todos") = true ∨
          hasCol (filter_by_region df r rc) tc = false := by
        rcases ht with h | h
        · exact Or.inl h
        · exact Or.inr (by rw [hasCol_filter_by_region]; exact h)
      have e4 : filter_by_tipo (filter_by_region df r rc) t tc =
          filter_by_region df r rc := by
        rw [filter_by_tipo, if_pos ht']
      rw [e4, e2]
    · have e5 : filter_by_region df r rc = filterExact df rc r := by
        rw [filter_by_region, if_neg hr]
      have e6 : filter_by_tipo df t tc = filterExact df tc t := by
        rw [filter_by_tipo, if_neg ht]
      have ht' : ¬((t == "Todos") = true ∨
          hasCol (filterExact df rc r) tc = false) := by
        intro hcon
        rcases hcon with h | h
        · exact ht (Or.inl h)
        · rw [hasCol_filterExact] at h
          exact ht (Or.inr h)
      have hr' : ¬((r == "Todas") = true ∨
          hasCol (filterExact df tc t) rc = false) := by
        intro hcon
        rcases hcon with h | h
        · exact hr (Or.inl h)
        · rw [hasCol_filterExact] at h
          exact hr (Or.inr h)
      have e7 : filter_by_tipo (filterExact df rc r) t tc =
          filterExact (filterExact df rc r) tc t := by
        rw [filter_by_tipo, if_neg ht']
      have e8 : filter_by_region (filterExact df tc t) r rc =
          filterExact (filterExact df tc t) rc r := by
        rw [filter_by_region, if_neg hr']
      rw [e5, e7, e6, e8]
      exact filterExact_comm df rc r tc t

/-- C8: clean is idempotent — cleaning an already-cleaned Dataset changes
nothing, for every input Dataset. -/
theorem clean_dataframe_idempotent (df : DataFrame) :
    clean_dataframe (clean_dataframe df) = clean_dataframe df := by
  apply dataFrame_eq_of
  · rfl
  · show (df.cols.map cleanCol).map cleanCol = df.cols.map cleanCol
    rw [List.map_map]
    exact List.map_congr_left (fun c _ => cleanCol_cleanCol c)

/-- C9 counterexample: on the sentinel path the filter returns the very
object it was given (the reference is unchanged and nothing is allocated),
so the result is not a new Dataset. -/
theorem filter_ref_counterexample :
    filter_by_region_ref (Store.mk [DataFrame.mk 1
      [Col.mk "RegionGlosa" Dtype.object [Cell.str "RM"]]]) 0 "Todas"
      "RegionGlosa" =
      (Store.mk [DataFrame.mk 1
        [Col.mk "RegionGlosa" Dtype.object [Cell.str "RM"]]], 0) ∧
    filter_by_tipo_ref (Store.mk [DataFrame.mk 1
      [Col.mk "RegionGlosa" Dtype.object [Cell.str "RM"]]]) 0 "Todos"
      "TipoEstablecimientoGlosa" =
      (Store.mk [DataFrame.mk 1
        [Col.mk "RegionGlosa" Dtype.object [Cell.str "RM"]]], 0) := by
  decide

/-- C9 (amended): neither filter ever mutates an existing Dataset object —
after a call, every previously allocated object (the input included) still
dereferences to its old value, so the original's rows, columns and row count
are unchanged; the result is either the input object itself (sentinel or
absent-column path) or a freshly allocated object outside the old store. -/
theorem filter_ref_no_mutation (s : Store) (r : Nat) (v rc tc : String) :
    (∀ i, i < s.objs.length →
      ((filter_by_region_ref s r v rc).1).deref i = s.deref i ∧
      ((filter_by_tipo_ref s r v tc).1).deref i = s.deref i) ∧
    ((filter_by_region_ref s r v rc).2 = r ∨
      s.objs.length ≤ (filter_by_region_ref s r v rc).2) ∧
    ((filter_by_tipo_ref s r v tc).2 = r ∨
      s.objs.length ≤ (filter_by_tipo_ref s r v tc).2) := by
  have hderef : ∀ (d : DataFrame) (i : Nat), i < s.objs.length →
      (Store.mk (s.objs ++ [d])).deref i = s.deref i := by
    intro d i hi
    simp [Store.deref, List.getElem?_append, hi]
  refine ⟨?_, ?_, ?_⟩
  · intro i hi
    constructor
    · unfold filter_by_region_ref
      cases s.deref r with
      | none => rfl
      | some df =>
          by_cases hc : (v == "Todas") = true ∨ hasCol df rc = false
          · simp only [hc, if_true, if_pos hc]
          · simp only [if_neg hc, Store.alloc]
            exact hderef _ i hi
    · unfold filter_by_tipo_ref
      cases s.deref r with
      | none => rfl
      | some df =>
          by_cases hc : (v == "Todos") = true ∨ hasCol df tc = false
          · simp only [hc, if_true, if_pos hc]
          · simp only [if_neg hc, Store.alloc]
            exact hderef _ i hi
  · unfold filter_by_region_ref
    cases s.deref r with
    | none => exact Or.inl rfl
    | some df =>
        dsimp only
        by_cases hc : (v == "Todas") = true ∨ hasCol df rc = false
        · rw [if_pos hc]; exact Or.inl rfl
        · rw [if_neg hc]; exact Or.inr (le_refl _)
  · unfold filter_by_tipo_ref
    cases s.deref r with
    | none => exact Or.inl rfl
    | some df =>
        dsimp only
        by_cases hc : (v == "Todos") = true ∨ hasCol df tc = false
        · rw [if_pos hc]; exact Or.inl rfl
        · rw [if_neg hc]; exact Or.inr (le_refl _)

/-- C9 witness: applies the no-mutation theorem to a concrete one-object
store under an actual (non-sentinel) region filter. -/
theorem filter_ref_no_mutation_witness :
    (Store.deref ((filter_by_region_ref (Store.mk [DataFrame.mk 1
      [Col.mk "RegionGlosa" Dtype.object [Cell.str "RM"]]]) 0 "V"
      "RegionGlosa").1) 0) =
      (Store.deref (Store.mk [DataFrame.mk 1
        [Col.mk "RegionGlosa" Dtype.object [Cell.str "RM"]]]) 0) :=
  ((filter_ref_no_mutation (Store.mk [DataFrame.mk 1
      [Col.mk "RegionGlosa" Dtype.object [Cell.str "RM"]]]) 0 "V"
      "RegionGlosa" "TipoEstablecimientoGlosa").1 0 (by decide)).1

end Databiz
